import Mathlib

/-!
Verification of the bounding-box-to-pixel-window extraction and
normalization pipeline of `streamlit_app.py` (Sentinel-2 L2A viewer).

The Python pipeline is shallowly embedded:
* geographic coordinates are exact rationals (`ℚ`), pixel indices are `ℤ`;
* a raster asset's pixel grid is a total function `ℤ → ℤ → ℤ` (the source
  reads single-band `uint16` assets; pixel values are embedded as integers);
* the north-up affine geotransform of a raster is modelled with its four
  nonzero coefficients `a, c, e, f` (Sentinel-2 L2A assets carry no rotation,
  so `x = a * col + c` and `y = e * row + f`);
* Python exceptions are the `Except` error path: a `KeyError` from
  `item.assets[band]` is `ExtractError.bandNotFound`, the rasterio/GDAL
  failure on a windowed read of zero width or height is
  `ExtractError.emptyWindow`, and numpy's `ValueError` from `np.stack` on an
  empty list is `ExtractError.emptyStack`.
-/

namespace S2

/-- A north-up affine geotransform, as exposed by `src.transform` in
rasterio: `x = a * col + c`, `y = e * row + f`, with pixel width `a` and
(negative) pixel height `e`. -/
structure Affine where
  a : ℚ
  c : ℚ
  e : ℚ
  f : ℚ
deriving DecidableEq

/-- The bounding box `bbox = [lon-buffer, lat-buffer, lon+buffer, lat+buffer]`
of line 23, unpacked on line 61 as `left, bottom, right, top = bbox`. -/
structure BBox where
  left : ℚ
  bottom : ℚ
  right : ℚ
  top : ℚ
deriving DecidableEq

/-- A pixel window as produced by `rasterio.windows.Window.from_slices`:
row/column offsets with a height and width. -/
structure Window where
  rowOff : ℤ
  colOff : ℤ
  height : ℤ
  width : ℤ
deriving DecidableEq

/-- The pixel grid of an opened raster asset. -/
abbrev Raster : Type := ℤ → ℤ → ℤ

/-- A raw (pre-normalization) 2D pixel plane, e.g. one element of the band
stack read by `read_band`. -/
abbrev Array2D : Type := ℤ → ℤ → ℤ

/-- A 2D plane after the float cast performed by `normalize`. -/
abbrev Array2Q : Type := ℤ → ℤ → ℚ

/-- An opened raster source (`rasterio.open(...)`): its geotransform and its
pixel grid. -/
structure Source where
  transform : Affine
  raster : Raster

/-- The ambient collaborators of `read_band`: the signing step
`planetary_computer.sign`, the raster opener `rasterio.open`, and the
band-to-asset-href dictionary of the globally selected scene
(`item.assets[band].href`, lines 47 and 68; a missing key is `none`). -/
structure Env where
  sign : String → String
  openR : String → Source
  itemAssets : String → Option String

/-- The failure modes of the extraction pipeline (Python exceptions escaping
`read_band`): a `KeyError` on `item.assets[band]`, the read failure on a
pixel window of zero width or height, and numpy's `ValueError` when
`np.stack` receives an empty list. -/
inductive ExtractError where
  | bandNotFound (band : String)
  | emptyWindow
  | emptyStack
deriving DecidableEq

/-- `src.index(x, y)` (lines 62-63): invert the geotransform and floor to the
containing pixel, returning `(row, col)` — rasterio's `rowcol` with its
default `math.floor` rounding. -/
def Affine.index (tr : Affine) (x y : ℚ) : ℤ × ℤ :=
  (⌊(y - tr.f) / tr.e⌋, ⌊(x - tr.c) / tr.a⌋)

/-- `Window.from_slices((rowStart, rowStop), (colStart, colStop))` (line 64):
offsets are the slice starts, height and width the slice differences. -/
def Window.from_slices (rowStart rowStop colStart colStop : ℤ) : Window :=
  ⟨rowStart, colStart, rowStop - rowStart, colStop - colStart⟩

/-- Lines 61-64 of `read_band`: map the two bbox corners `(left, top)` and
`(right, bottom)` through `src.index` and form the window from the
componentwise `min` and `max` of the two row results and the two column
results. -/
def computeWindow (tr : Affine) (bbox : BBox) : Window :=
  Window.from_slices
    (min (tr.index bbox.left bbox.top).1 (tr.index bbox.right bbox.bottom).1)
    (max (tr.index bbox.left bbox.top).1 (tr.index bbox.right bbox.bottom).1)
    (min (tr.index bbox.left bbox.top).2 (tr.index bbox.right bbox.bottom).2)
    (max (tr.index bbox.left bbox.top).2 (tr.index bbox.right bbox.bottom).2)

/-- `bsrc.read(1, window=window, out_shape=(256, 256))` (line 70): a windowed
read resampled to a fixed 256×256 output (decimated/nearest lookup into the
window). rasterio/GDAL reject a read whose window has zero width or height,
which is the `emptyWindow` failure. -/
def readWindow (r : Raster) (w : Window) : Except ExtractError Array2D :=
  if w.height ≤ 0 ∨ w.width ≤ 0 then .error .emptyWindow
  else .ok (fun i j => r (w.rowOff + i * w.height / 256) (w.colOff + j * w.width / 256))

/-- The body of the `for band in bands` loop (lines 66-71): look up the
band's own asset href in the selected scene's asset dictionary
(`item.assets[band].href`, a `KeyError` when absent), sign it, open it, and
read the shared pixel window from it. -/
def bandRead (env : Env) (w : Window) (band : String) : Except ExtractError Array2D :=
  match env.itemAssets band with
  | none => .error (.bandNotFound band)
  | some href => readWindow (env.openR (env.sign href)).raster w

/-- The `for band in bands` loop of lines 65-71: read each requested band in
order, aborting at the first failure, and collect the per-band planes in
request order. -/
def readBands (env : Env) (w : Window) : List String → Except ExtractError (List Array2D)
  | [] => .ok []
  | band :: rest =>
    match bandRead env w band with
    | .error e => .error e
    | .ok arr =>
      match readBands env w rest with
      | .error e => .error e
      | .ok arrs => .ok (arr :: arrs)

/-- `read_band(asset_href, bbox, bands)` (lines 57-73): open the reference
source from the signed `asset_href`, derive the pixel window from its
transform and the bbox corners, read every band of `bands` from that band's
own asset in the selected scene, stack the planes along a trailing band axis
(embedded as the list, index `k` of the stack being element `k`), and return
the stack together with `src.transform` of the reference source. An empty
band list reaches `np.stack([], axis=-1)`, which raises (`emptyStack`). -/
def read_band (env : Env) (asset_href : String) (bbox : BBox) (bands : List String) :
    Except ExtractError (List Array2D × Affine) :=
  match readBands env (computeWindow (env.openR (env.sign asset_href)).transform bbox) bands with
  | .error e => .error e
  | .ok [] => .error .emptyStack
  | .ok arrs => .ok (arrs, (env.openR (env.sign asset_href)).transform)

/-- `read_band` with the reference source's transform passed explicitly: the
factored form showing that `asset_href` feeds the computation only through
the transform of the source it opens, while all pixel data comes from
`env.itemAssets` (the globally selected scene's band assets). -/
def readBandVia (env : Env) (tr : Affine) (bbox : BBox) (bands : List String) :
    Except ExtractError (List Array2D × Affine) :=
  match readBands env (computeWindow tr bbox) bands with
  | .error e => .error e
  | .ok [] => .error .emptyStack
  | .ok arrs => .ok (arrs, tr)

/-- The same bounding box with its two corners `(left, top)` and
`(right, bottom)` exchanged, i.e. the corners passed to `src.index` in the
opposite order. -/
def swapCorners (b : BBox) : BBox :=
  ⟨b.right, b.top, b.left, b.bottom⟩

/-- `normalize(arr)` (lines 79-82): cast to float, `np.clip(arr, 0, 3000)`,
divide by 3000 — applied pointwise to a pixel plane. -/
def normalize (arr : Array2D) : Array2Q :=
  fun i j => min 3000 (max ((arr i j : ℚ)) 0) / 3000

/-- `normalize` applied to a multi-band stack such as `preview[..., :3]`
(the trailing band axis is the list). -/
def normalizeStack (p : List Array2D) : List Array2Q :=
  p.map normalize

/-- The display image produced on line 84: either a 3-channel RGB or a
single grayscale channel. -/
inductive RGBImage where
  | rgb (chans : List Array2Q)
  | gray (chan : Array2Q)

/-- The default (all-zero) pixel plane; used where numpy would fault. -/
def dArr : Array2D := fun _ _ => 0

/-- Line 84: `normalize(preview[..., :3]) if preview.shape[-1] >= 3 else
normalize(preview[..., 0])`. With an empty band axis, `preview[..., 0]`
raises an `IndexError`, embedded as `none`. -/
def img_rgb (preview : List Array2D) : Option RGBImage :=
  if 3 ≤ preview.length then some (.rgb (normalizeStack (preview.take 3)))
  else
    match preview with
    | [] => none
    | arr :: _ => some (.gray (normalize arr))

/-- `rasterio.windows.transform(window, src.transform)`: the crop-accurate
geotransform of a window, with the origin shifted by the window offsets.
(`read_band` does NOT return this; it returns the full-asset transform.) -/
def windowTransform (tr : Affine) (w : Window) : Affine :=
  { a := tr.a, c := tr.c + tr.a * w.colOff, e := tr.e, f := tr.f + tr.e * w.rowOff }

/-- A written GeoTIFF artifact, as configured by the `rasterio.open(tmp.name,
"w", ...)` call of lines 97-106: the creation profile plus the band planes,
keyed by 1-based band index. GeoTIFF storage of integer samples and of the
six-parameter geotransform is lossless, so the artifact stores them
exactly. -/
structure TiffFile where
  height : ℕ
  width : ℕ
  count : ℕ
  crs : String
  transform : Affine
  planes : ℕ → Array2D

/-- `dst.write(arr, i)` (line 108): store plane `arr` at 1-based band index
`i`. -/
def TiffFile.write (fl : TiffFile) (arr : Array2D) (i : ℕ) : TiffFile :=
  { fl with planes := fun j => if j = i then arr else fl.planes j }

/-- The write loop of lines 107-108: `for i in range(preview.shape[2]):
dst.write(preview[..., i], i+1)`. -/
def writeLoop (preview : List Array2D) (dst : TiffFile) : TiffFile :=
  (List.range preview.length).foldl (fun fl i => fl.write (preview.getD i dArr) (i + 1)) dst

/-- The download handler's export (lines 96-108, the spec's `exportRaster`):
create a GeoTIFF writer with the stack's spatial size (256×256, from the
fixed `out_shape`), band count, `crs="EPSG:4326"`, and the supplied
transform, then write each band plane with 1-based indices in stack
order. -/
def exportRaster (preview : List Array2D) (transform : Affine) : TiffFile :=
  writeLoop preview
    { height := 256, width := 256, count := preview.length,
      crs := "EPSG:4326", transform := transform, planes := fun _ => dArr }

/-- Re-opening a written GeoTIFF and reading all of its bands back, in
1-based band order. -/
def TiffFile.readPlanes (fl : TiffFile) : List Array2D :=
  (List.range fl.count).map (fun k => fl.planes (k + 1))

/-! Concrete instances used by witnesses and counterexamples. -/

/-- An example north-up transform: unit pixels, origin `x = 0`, `y = 10`. -/
def exTr : Affine := ⟨1, 0, -1, 10⟩

/-- Pixel grid of the example `B08` asset. -/
def exRaster1 : Raster := fun i j => i + 2 * j

/-- Pixel grid of the example `B04` asset. -/
def exRaster2 : Raster := fun i j => 7 * i + j

/-- An example environment: signing is the identity, every href opens onto
the transform `exTr`, and the selected scene has band assets `B08` and
`B04`. -/
def exEnv : Env :=
  { sign := fun h => h,
    openR := fun h =>
      if h = "B08href" then ⟨exTr, exRaster1⟩
      else if h = "B04href" then ⟨exTr, exRaster2⟩
      else ⟨exTr, dArr⟩,
    itemAssets := fun b =>
      if b = "B08" then some "B08href"
      else if b = "B04" then some "B04href"
      else none }

/-- A bbox spanning two full pixels of `exTr` in each axis. -/
def posBBox : BBox := ⟨0, 0, 2, 2⟩

/-- A valid (west < east, south < north) bbox strictly inside one single
pixel of `exTr`. -/
def cBBox : BBox := ⟨1/5, 46/5, 2/5, 47/5⟩

/-- A plane whose pixels all exceed the 3000 reflectance cap. -/
def cArr : Array2D := fun _ _ => 5000

/-- The example preview extraction used by witnesses. -/
def exRun : Except ExtractError (List Array2D × Affine) :=
  read_band exEnv "refhref" posBBox ["B08"]

/-- The stack of `exRun`. -/
def exStack : List Array2D :=
  match exRun with
  | .ok (p, _) => p
  | .error _ => []

/-- The transform returned by `exRun`. -/
def exT : Affine :=
  match exRun with
  | .ok (_, t) => t
  | .error _ => exTr

/-! ### Helper lemmas -/

/-- Evaluation rule for `Int.floor` on concrete rationals. -/
theorem floor_eval (q : ℚ) (n : ℤ) (h1 : (n : ℚ) ≤ q) (h2 : q < n + 1) : ⌊q⌋ = n :=
  Int.floor_eq_iff.mpr ⟨h1, h2⟩

/-- The reference source opened by the example run carries `exTr`. -/
theorem exSrcTr : (exEnv.openR (exEnv.sign "refhref")).transform = exTr := rfl

/-- The pixel window of the example bbox `posBBox` under `exTr`. -/
theorem exWin_eq : computeWindow exTr posBBox = ⟨8, 0, 2, 2⟩ := by
  have hr1 : ⌊(posBBox.top - exTr.f) / exTr.e⌋ = 8 :=
    floor_eval _ 8 (by norm_num [posBBox, exTr]) (by norm_num [posBBox, exTr])
  have hr2 : ⌊(posBBox.bottom - exTr.f) / exTr.e⌋ = 10 :=
    floor_eval _ 10 (by norm_num [posBBox, exTr]) (by norm_num [posBBox, exTr])
  have hc1 : ⌊(posBBox.left - exTr.c) / exTr.a⌋ = 0 :=
    floor_eval _ 0 (by norm_num [posBBox, exTr]) (by norm_num [posBBox, exTr])
  have hc2 : ⌊(posBBox.right - exTr.c) / exTr.a⌋ = 2 :=
    floor_eval _ 2 (by norm_num [posBBox, exTr]) (by norm_num [posBBox, exTr])
  simp only [computeWindow, Affine.index, Window.from_slices, hr1, hr2, hc1, hc2]
  decide

/-- The pixel window of the sub-pixel bbox `cBBox` under `exTr` collapses to
zero width and height. -/
theorem cWin_eq : computeWindow exTr cBBox = ⟨0, 0, 0, 0⟩ := by
  have hr1 : ⌊(cBBox.top - exTr.f) / exTr.e⌋ = 0 :=
    floor_eval _ 0 (by norm_num [cBBox, exTr]) (by norm_num [cBBox, exTr])
  have hr2 : ⌊(cBBox.bottom - exTr.f) / exTr.e⌋ = 0 :=
    floor_eval _ 0 (by norm_num [cBBox, exTr]) (by norm_num [cBBox, exTr])
  have hc1 : ⌊(cBBox.left - exTr.c) / exTr.a⌋ = 0 :=
    floor_eval _ 0 (by norm_num [cBBox, exTr]) (by norm_num [cBBox, exTr])
  have hc2 : ⌊(cBBox.right - exTr.c) / exTr.a⌋ = 0 :=
    floor_eval _ 0 (by norm_num [cBBox, exTr]) (by norm_num [cBBox, exTr])
  simp only [computeWindow, Affine.index, Window.from_slices, hr1, hr2, hc1, hc2]
  decide

/-! ### C1: order-independence of the window computation -/

/-- C1: in `read_band`, the pixel window is formed from the componentwise
`min` and `max` of the corner-derived row and column indices, so passing the
two geographic corners of the bbox in either order yields the identical
window. -/
theorem computeWindow_corner_order (tr : Affine) (b : BBox) :
    computeWindow tr (swapCorners b) = computeWindow tr b := by
  simp only [computeWindow, swapCorners, Window.from_slices, Window.mk.injEq]
  refine ⟨min_comm _ _, min_comm _ _, ?_, ?_⟩
  · rw [min_comm, max_comm]
  · rw [min_comm, max_comm]

/-! ### C2: positivity of the computed window -/

/-- C2 (counterexample): a valid bbox (west < east, south < north) that lies
strictly inside a single pixel of the asset yields a window of zero width
and zero height, refuting strict positivity for every valid bbox. -/
theorem read_band_positive_window_cex :
    cBBox.left < cBBox.right ∧ cBBox.bottom < cBBox.top ∧
    ¬ (0 < (computeWindow exTr cBBox).width ∧ 0 < (computeWindow exTr cBBox).height) := by
  refine ⟨by norm_num [cBBox], by norm_num [cBBox], ?_⟩
  rw [cWin_eq]
  decide

/-- C2 (amended): for a north-up transform (positive pixel width `a`,
negative pixel height `e`), any bbox spanning at least one pixel in each
axis (`right - left ≥ a` and `top - bottom ≥ -e`) yields a window of
strictly positive width and height. -/
theorem computeWindow_positive_of_pixel_span (tr : Affine) (b : BBox)
    (ha : 0 < tr.a) (he : tr.e < 0)
    (hx : tr.a ≤ b.right - b.left) (hy : -tr.e ≤ b.top - b.bottom) :
    0 < (computeWindow tr b).width ∧ 0 < (computeWindow tr b).height := by
  have he2 : (0 : ℚ) < -tr.e := by linarith
  have hc : ⌊(b.left - tr.c) / tr.a⌋ + 1 ≤ ⌊(b.right - tr.c) / tr.a⌋ := by
    have h1 : (1 : ℚ) ≤ (b.right - b.left) / tr.a := (le_div_iff₀ ha).mpr (by linarith)
    have h2 : (b.left - tr.c) / tr.a + (b.right - b.left) / tr.a = (b.right - tr.c) / tr.a := by
      rw [div_add_div_same]
      ring_nf
    have h3 : (b.left - tr.c) / tr.a + 1 ≤ (b.right - tr.c) / tr.a := by linarith
    calc ⌊(b.left - tr.c) / tr.a⌋ + 1 = ⌊(b.left - tr.c) / tr.a + 1⌋ := (Int.floor_add_one _).symm
      _ ≤ ⌊(b.right - tr.c) / tr.a⌋ := Int.floor_le_floor h3
  have hrw1 : (b.top - tr.f) / tr.e = (tr.f - b.top) / (-tr.e) := by
    rw [div_neg, ← neg_div, neg_sub]
  have hrw2 : (b.bottom - tr.f) / tr.e = (tr.f - b.bottom) / (-tr.e) := by
    rw [div_neg, ← neg_div, neg_sub]
  have hr : ⌊(b.top - tr.f) / tr.e⌋ + 1 ≤ ⌊(b.bottom - tr.f) / tr.e⌋ := by
    rw [hrw1, hrw2]
    have h1 : (1 : ℚ) ≤ (b.top - b.bottom) / (-tr.e) := (le_div_iff₀ he2).mpr (by linarith)
    have h2 : (tr.f - b.top) / (-tr.e) + (b.top - b.bottom) / (-tr.e)
        = (tr.f - b.bottom) / (-tr.e) := by
      rw [div_add_div_same]
      ring_nf
    have h3 : (tr.f - b.top) / (-tr.e) + 1 ≤ (tr.f - b.bottom) / (-tr.e) := by linarith
    calc ⌊(tr.f - b.top) / (-tr.e)⌋ + 1 = ⌊(tr.f - b.top) / (-tr.e) + 1⌋ :=
          (Int.floor_add_one _).symm
      _ ≤ ⌊(tr.f - b.bottom) / (-tr.e)⌋ := Int.floor_le_floor h3
  simp only [computeWindow, Affine.index, Window.from_slices]
  constructor
  · omega
  · omega

/-- C2 (witness): the amended positivity theorem at a concrete transform and
bbox spanning two pixels per axis. -/
theorem computeWindow_positive_witness :
    0 < (computeWindow exTr posBBox).width ∧ 0 < (computeWindow exTr posBBox).height :=
  computeWindow_positive_of_pixel_span exTr posBBox (by norm_num [exTr]) (by norm_num [exTr])
    (by norm_num [exTr, posBBox]) (by norm_num [exTr, posBBox])

/-! ### C4: range of normalize -/

/-- C4: `normalize` casts to float, clips to `[0, 3000]` and divides by 3000:
every output pixel lies in `[0, 1]`, pixels above 3000 saturate to 1, pixels
below 0 clip to 0, and the function is total (no exception on out-of-range
input). -/
theorem normalize_range (arr : Array2D) (i j : ℤ) :
    0 ≤ normalize arr i j ∧ normalize arr i j ≤ 1 ∧
    (3000 < ((arr i j : ℤ) : ℚ) → normalize arr i j = 1) ∧
    (((arr i j : ℤ) : ℚ) < 0 → normalize arr i j = 0) := by
  simp only [normalize]
  refine ⟨?_, ?_, ?_, ?_⟩
  · exact div_nonneg (le_min (by norm_num) (le_max_right _ _)) (by norm_num)
  · rw [div_le_one (by norm_num : (0:ℚ) < 3000)]
    exact min_le_left _ _
  · intro h
    rw [max_eq_left (by linarith), min_eq_left (by linarith)]
    norm_num
  · intro h
    rw [max_eq_right (by linarith), min_eq_right (by norm_num)]
    norm_num

/-- C4 (witness): a plane of constant value 5000 normalizes to exactly 1. -/
theorem normalize_range_witness : normalize cArr 0 0 = 1 :=
  (normalize_range cArr 0 0).2.2.1 (by norm_num [cArr])

/-! ### Inversion lemmas for `read_band` -/

/-- A failing band loop makes `read_band` fail with the same error. -/
theorem read_band_error (env : Env) (asset_href : String) (bbox : BBox)
    (bands : List String) (e : ExtractError)
    (h : readBands env (computeWindow (env.openR (env.sign asset_href)).transform bbox) bands
        = .error e) :
    read_band env asset_href bbox bands = .error e := by
  unfold read_band
  rw [h]

/-- Inversion of a successful `read_band`: the band loop succeeded with the
returned (necessarily non-empty) stack, and the returned transform is that
of the reference source opened from `asset_href`. -/
theorem read_band_ok_inv (env : Env) (asset_href : String) (bbox : BBox)
    (bands : List String) (p : List Array2D) (t : Affine)
    (h : read_band env asset_href bbox bands = .ok (p, t)) :
    readBands env (computeWindow (env.openR (env.sign asset_href)).transform bbox) bands
      = .ok p ∧
    p ≠ [] ∧ t = (env.openR (env.sign asset_href)).transform := by
  unfold read_band at h
  split at h
  · exact absurd h (by simp)
  · exact absurd h (by simp)
  · next x hne heq =>
    simp only [Except.ok.injEq, Prod.mk.injEq] at h
    obtain ⟨h1, h2⟩ := h
    subst h1
    exact ⟨heq, hne, h2.symm⟩

/-- A successful band loop returns one plane per requested band. -/
theorem readBands_ok_length (env : Env) (w : Window) :
    ∀ (bands : List String) (p : List Array2D),
      readBands env w bands = .ok p → p.length = bands.length := by
  intro bands
  induction bands with
  | nil =>
    intro p h
    simp only [readBands, Except.ok.injEq] at h
    subst h
    rfl
  | cons band rest ih =>
    intro p h
    simp only [readBands] at h
    split at h
    · exact absurd h (by simp)
    · split at h
      · exact absurd h (by simp)
      · next arr harr arrs hrest =>
        simp only [Except.ok.injEq] at h
        subst h
        simp [ih _ hrest]

/-- A successful band loop reads plane `k` of its result from band `k` of
the request list. -/
theorem readBands_ok_getD (env : Env) (w : Window) :
    ∀ (bands : List String) (p : List Array2D),
      readBands env w bands = .ok p →
      ∀ k, k < bands.length → bandRead env w (bands.getD k "") = .ok (p.getD k dArr) := by
  intro bands
  induction bands with
  | nil =>
    intro p h k hk
    simp at hk
  | cons band rest ih =>
    intro p h k hk
    simp only [readBands] at h
    split at h
    · exact absurd h (by simp)
    · next arr harr =>
      split at h
      · exact absurd h (by simp)
      · next arrs hrest =>
        simp only [Except.ok.injEq] at h
        subst h
        cases k with
        | zero => simpa using harr
        | succ k =>
          simp only [List.getD_cons_succ]
          exact ih arrs hrest k (by simpa using hk)

/-- Raw evaluation of the example run: one band, read through the example
environment over the two-pixel window of `posBBox`. -/
theorem exRun_raw :
    exRun = .ok ([fun i j => exRaster1 (8 + i * 2 / 256) (0 + j * 2 / 256)], exTr) := by
  have hwin : computeWindow (exEnv.openR (exEnv.sign "refhref")).transform posBBox
      = ⟨8, 0, 2, 2⟩ := by
    rw [exSrcTr]
    exact exWin_eq
  unfold exRun read_band
  rw [hwin]
  rfl

/-- The example stack is the single plane read from the `B08` asset. -/
theorem exStack_eq : exStack = [fun i j => exRaster1 (8 + i * 2 / 256) (0 + j * 2 / 256)] := by
  unfold exStack
  rw [exRun_raw]

/-- The example run returns the transform `exTr`. -/
theorem exT_eq : exT = exTr := by
  unfold exT
  rw [exRun_raw]

/-- Evaluation of the example run against its projections `exStack`, `exT`. -/
theorem exRun_eq : read_band exEnv "refhref" posBBox ["B08"] = .ok (exStack, exT) := by
  show exRun = .ok (exStack, exT)
  rw [exRun_raw, exStack_eq, exT_eq]

/-! ### C3: empty pixel window -/

/-- C3: when the computed pixel window has zero width or zero height, the
first band read fails and `read_band` propagates the empty-window error
instead of returning an array (stated for a non-empty band list whose first
band exists in the scene's assets, so that the read is what fails). -/
theorem read_band_empty_window (env : Env) (asset_href : String) (bbox : BBox)
    (band : String) (rest : List String)
    (hb : (env.itemAssets band).isSome)
    (hw : (computeWindow (env.openR (env.sign asset_href)).transform bbox).width = 0 ∨
          (computeWindow (env.openR (env.sign asset_href)).transform bbox).height = 0) :
    read_band env asset_href bbox (band :: rest) = .error .emptyWindow := by
  obtain ⟨href, hh⟩ := Option.isSome_iff_exists.mp hb
  apply read_band_error
  have hcond : (computeWindow (env.openR (env.sign asset_href)).transform bbox).height ≤ 0 ∨
      (computeWindow (env.openR (env.sign asset_href)).transform bbox).width ≤ 0 := by
    rcases hw with h | h
    · right
      omega
    · left
      omega
  simp only [readBands, bandRead, hh, readWindow, if_pos hcond]

/-- C3 (witness): a sub-pixel bbox (zero-size window) with an existing band
fails with the empty-window error. -/
theorem read_band_empty_window_witness :
    read_band exEnv "refhref" cBBox ["B04"] = .error .emptyWindow :=
  read_band_empty_window exEnv "refhref" cBBox "B04" [] (by decide)
    (by rw [exSrcTr, cWin_eq]; left; rfl)

/-! ### C5: band order preservation -/

/-- C5: the band axis of a successful `read_band` result follows `bands`
exactly: the stack has one plane per requested band, and plane `k` is the
plane read (through the scene's asset for that identifier) for the `k`-th
identifier of `bands`. -/
theorem read_band_band_order (env : Env) (asset_href : String) (bbox : BBox)
    (bands : List String) (p : List Array2D) (t : Affine)
    (h : read_band env asset_href bbox bands = .ok (p, t)) :
    p.length = bands.length ∧
    ∀ k, k < bands.length →
      bandRead env (computeWindow (env.openR (env.sign asset_href)).transform bbox)
        (bands.getD k "") = .ok (p.getD k dArr) := by
  obtain ⟨hb, hne, ht⟩ := read_band_ok_inv env asset_href bbox bands p t h
  exact ⟨readBands_ok_length env _ bands p hb, fun k hk => readBands_ok_getD env _ bands p hb k hk⟩

/-- C5 (witness): the band-order theorem at the concrete example run. -/
theorem read_band_band_order_witness :
    exStack.length = (["B08"] : List String).length ∧
    bandRead exEnv (computeWindow (exEnv.openR (exEnv.sign "refhref")).transform posBBox)
      ((["B08"] : List String).getD 0 "") = .ok (exStack.getD 0 dArr) :=
  ⟨(read_band_band_order exEnv "refhref" posBBox ["B08"] exStack exT exRun_eq).1,
   (read_band_band_order exEnv "refhref" posBBox ["B08"] exStack exT exRun_eq).2 0 (by decide)⟩

/-! ### C6: the returned transform is the full-asset transform -/

/-- C6: every successful `read_band` returns the geotransform of the
reference source opened from `asset_href` (the original full-asset
georeferencing); it is not the recomputed transform of the windowed crop,
which differs from it on the example window with a nonzero row offset. -/
theorem read_band_full_transform :
    (∀ (env : Env) (asset_href : String) (bbox : BBox) (bands : List String)
       (p : List Array2D) (t : Affine),
       read_band env asset_href bbox bands = .ok (p, t) →
       t = (env.openR (env.sign asset_href)).transform) ∧
    windowTransform exTr (computeWindow exTr posBBox) ≠ exTr := by
  constructor
  · intro env asset_href bbox bands p t h
    exact (read_band_ok_inv env asset_href bbox bands p t h).2.2
  · rw [exWin_eq]
    simp only [windowTransform, exTr, ne_eq, Affine.mk.injEq]
    norm_num

/-- C6 (witness): the transform of the concrete example run is the reference
source's transform. -/
theorem read_band_full_transform_witness :
    exT = (exEnv.openR (exEnv.sign "refhref")).transform :=
  read_band_full_transform.1 exEnv "refhref" posBBox ["B08"] exStack exT exRun_eq

/-! ### C7: missing band identifier -/

/-- With a readable (positive) window, a band list containing an identifier
absent from the scene's assets makes the band loop fail with a
band-not-found error for some absent identifier in the list. -/
theorem readBands_missing (env : Env) (w : Window) (hw : 0 < w.height ∧ 0 < w.width) :
    ∀ (bands : List String) (band : String), band ∈ bands → env.itemAssets band = none →
    ∃ b2, b2 ∈ bands ∧ env.itemAssets b2 = none ∧
      readBands env w bands = .error (.bandNotFound b2) := by
  intro bands
  induction bands with
  | nil =>
    intro band hmem
    exact absurd hmem (List.not_mem_nil band)
  | cons b0 rest ih =>
    intro band hmem habs
    rcases h0 : env.itemAssets b0 with _ | href
    · refine ⟨b0, List.mem_cons_self b0 rest, h0, ?_⟩
      simp [readBands, bandRead, h0]
    · have hbr : band ∈ rest := by
        rcases List.mem_cons.mp hmem with h | h
        · subst h
          rw [habs] at h0
          exact absurd h0 (by simp)
        · exact h
      obtain ⟨b2, hb2, habs2, herr⟩ := ih band hbr habs
      refine ⟨b2, List.mem_cons_of_mem b0 hb2, habs2, ?_⟩
      have hcond : ¬ (w.height ≤ 0 ∨ w.width ≤ 0) := by omega
      simp [readBands, bandRead, h0, readWindow, if_neg hcond, herr]

/-- C7: if `bands` contains an identifier absent from the selected scene's
band assets (and the window itself is readable), `read_band` fails with a
band-not-found error and returns no partial array. -/
theorem read_band_band_not_found (env : Env) (asset_href : String) (bbox : BBox)
    (bands : List String) (band : String)
    (hmem : band ∈ bands) (habs : env.itemAssets band = none)
    (hw : 0 < (computeWindow (env.openR (env.sign asset_href)).transform bbox).height ∧
          0 < (computeWindow (env.openR (env.sign asset_href)).transform bbox).width) :
    ∃ b2, b2 ∈ bands ∧ env.itemAssets b2 = none ∧
      read_band env asset_href bbox bands = .error (.bandNotFound b2) := by
  obtain ⟨b2, h1, h2, h3⟩ :=
    readBands_missing env (computeWindow (env.openR (env.sign asset_href)).transform bbox)
      hw bands band hmem habs
  exact ⟨b2, h1, h2, read_band_error env asset_href bbox bands _ h3⟩

/-- C7 (witness): requesting `["B08", "ZZZ"]` where `ZZZ` is not among the
scene's assets fails with a band-not-found error. -/
theorem read_band_band_not_found_witness :
    ∃ b2, b2 ∈ (["B08", "ZZZ"] : List String) ∧ exEnv.itemAssets b2 = none ∧
      read_band exEnv "refhref" posBBox ["B08", "ZZZ"] = .error (.bandNotFound b2) :=
  read_band_band_not_found exEnv "refhref" posBBox ["B08", "ZZZ"] "ZZZ" (by decide) (by decide)
    (by rw [exSrcTr, exWin_eq]; decide)

/-! ### C8: display normalization arity -/

/-- C8: for every extracted stack, the display step of line 84 normalizes
only the first band when fewer than 3 bands are present (grayscale output,
no failure), and the first three bands when at least 3 are present. -/
theorem img_rgb_band_arity (env : Env) (asset_href : String) (bbox : BBox)
    (bands : List String) (p : List Array2D) (t : Affine)
    (h : read_band env asset_href bbox bands = .ok (p, t)) :
    (p.length < 3 → img_rgb p = some (.gray (normalize (p.headD dArr)))) ∧
    (3 ≤ p.length → img_rgb p = some (.rgb (normalizeStack (p.take 3)))) := by
  obtain ⟨hb, hne, ht⟩ := read_band_ok_inv env asset_href bbox bands p t h
  constructor
  · intro hlt
    cases p with
    | nil => exact absurd rfl hne
    | cons arr rest =>
      have hlen : ¬ 3 ≤ (arr :: rest).length := by
        simp only [List.length_cons] at hlt ⊢
        omega
      unfold img_rgb
      rw [if_neg hlen]
      simp
  · intro hge
    unfold img_rgb
    rw [if_pos hge]

/-- C8 (witness): the single-band example stack is displayed as grayscale of
its first band. -/
theorem img_rgb_band_arity_witness :
    img_rgb exStack = some (.gray (normalize (exStack.headD dArr))) :=
  (img_rgb_band_arity exEnv "refhref" posBBox ["B08"] exStack exT exRun_eq).1
    (by rw [exStack_eq]; decide)

/-! ### C10: asset_href only determines window and transform -/

/-- C10: `read_band` factors through `readBandVia`: the `asset_href`
argument enters only as the geotransform of the reference source it opens
(used for the window computation and the returned transform), while all
pixel data is read from the globally selected scene's band assets
(`env.itemAssets`). Consequently two calls with the same scene, bbox and
bands whose reference sources carry the same transform return identical
results even for different `asset_href` values. -/
theorem read_band_href_transform_only (env : Env) (h1 h2 : String) (bbox : BBox)
    (bands : List String)
    (htr : (env.openR (env.sign h1)).transform = (env.openR (env.sign h2)).transform) :
    read_band env h1 bbox bands = read_band env h2 bbox bands ∧
    read_band env h1 bbox bands = readBandVia env ((env.openR (env.sign h1)).transform) bbox bands := by
  have e1 : read_band env h1 bbox bands
      = readBandVia env ((env.openR (env.sign h1)).transform) bbox bands := rfl
  have e2 : read_band env h2 bbox bands
      = readBandVia env ((env.openR (env.sign h2)).transform) bbox bands := rfl
  refine ⟨?_, e1⟩
  rw [e1, e2, htr]

/-- C10 (witness): two different hrefs opening sources with the same
transform produce identical results under the example scene. -/
theorem read_band_href_transform_only_witness :
    read_band exEnv "B08href" posBBox ["B08"] = read_band exEnv "nope" posBBox ["B08"] ∧
    read_band exEnv "B08href" posBBox ["B08"]
      = readBandVia exEnv ((exEnv.openR (exEnv.sign "B08href")).transform) posBBox ["B08"] :=
  read_band_href_transform_only exEnv "B08href" "nope" posBBox ["B08"] rfl

/-! ### C9: export round trip -/

/-- The write loop never touches the profile's transform. -/
theorem writeFold_transform (preview : List Array2D) (l : List ℕ) (fl : TiffFile) :
    (l.foldl (fun g i => g.write (preview.getD i dArr) (i + 1)) fl).transform = fl.transform := by
  induction l generalizing fl with
  | nil => rfl
  | cons a l ih =>
    rw [List.foldl_cons, ih]
    rfl

/-- The write loop never touches the profile's band count. -/
theorem writeFold_count (preview : List Array2D) (l : List ℕ) (fl : TiffFile) :
    (l.foldl (fun g i => g.write (preview.getD i dArr) (i + 1)) fl).count = fl.count := by
  induction l generalizing fl with
  | nil => rfl
  | cons a l ih =>
    rw [List.foldl_cons, ih]
    rfl

/-- After writing planes `0, ..., n-1` of the stack at 1-based indices,
plane `k + 1` of the artifact holds plane `k` of the stack. -/
theorem writeFold_planes (preview : List Array2D) :
    ∀ (n : ℕ) (fl : TiffFile) (k : ℕ), k < n →
      ((List.range n).foldl (fun g i => g.write (preview.getD i dArr) (i + 1)) fl).planes (k + 1)
        = preview.getD k dArr := by
  intro n
  induction n with
  | zero =>
    intro fl k hk
    exact absurd hk (Nat.not_lt_zero k)
  | succ n ih =>
    intro fl k hk
    rw [List.range_succ, List.foldl_append, List.foldl_cons, List.foldl_nil]
    by_cases hkn : k = n
    · subst hkn
      simp [TiffFile.write]
    · simp only [TiffFile.write]
      rw [if_neg (by omega)]
      exact ih fl k (by omega)

/-- C9: exporting a stack with the supplied transform (256×256 profile,
band count from the stack, EPSG:4326, 1-based band writes in stack order)
and re-opening the artifact returns the original stack, in order, and the
original geotransform. -/
theorem exportRaster_round_trip (preview : List Array2D) (transform : Affine) :
    (exportRaster preview transform).readPlanes = preview ∧
    (exportRaster preview transform).transform = transform := by
  have hcount : (exportRaster preview transform).count = preview.length := by
    unfold exportRaster writeLoop
    rw [writeFold_count]
  refine ⟨?_, by unfold exportRaster writeLoop; rw [writeFold_transform]⟩
  unfold TiffFile.readPlanes
  rw [hcount]
  apply List.ext_getElem
  · simp
  · intro i h1 h2
    rw [List.getElem_map, List.getElem_range]
    have hp : (exportRaster preview transform).planes (i + 1) = preview.getD i dArr := by
      unfold exportRaster writeLoop
      exact writeFold_planes preview preview.length _ i h2
    rw [hp]
    exact List.getD_eq_getElem preview dArr h2

end S2
